import Mathlib

/-!
Shallow embedding of `src/main.py` (GitScout): a GitHub "good first issue"
watcher.  The mutable global `config : AppConfig` is modelled by explicit
state passing; file I/O (`config.json`) by the `ConfigFile` record that
`save_config` produces and `load_config` consumes; the two network calls
(GitHub fetch, Discord webhook post) by `Except`-valued environment
parameters of `run_check_once`.
-/

namespace GitScout

/-- Pydantic model `SearchConfig` (src/main.py lines 18-21). -/
structure SearchConfig where
  organizations : List String
  languages : List String
  polling_interval : Int
deriving Repr, DecidableEq

/-- Pydantic model `NotificationConfig` (src/main.py lines 24-25). -/
structure NotificationConfig where
  webhook_url : Option String
deriving Repr, DecidableEq

/-- One GitHub issue item.  In the source items are raw JSON dicts
(`Dict[str, Any]`); this record carries exactly the keys the program ever
reads: `id` (line 206), `title`, `html_url`, `state`, `body`,
`repository_url` (lines 163-171).  Absent keys read through `.get` are
`none`. -/
structure Item where
  id : Option Int
  title : Option String
  html_url : Option String
  repository_url : String
  state : Option String
  body : Option String
deriving Repr, DecidableEq

/-- Pydantic model `AppConfig` (src/main.py lines 28-33): the authoritative
in-memory engine state. -/
structure AppConfig where
  search : SearchConfig
  notif : NotificationConfig
  is_active : Bool
  known_issue_ids : Finset Int
  last_items : List Item
deriving DecidableEq

/-- The durable `config.json` record.  `save_config` writes
`known_issue_ids` as a list (line 61: `list(cfg.known_issue_ids)`); the
other fields pass through JSON unchanged. -/
structure ConfigFile where
  search : SearchConfig
  notif : NotificationConfig
  is_active : Bool
  known_issue_ids : List Int
  last_items : List Item
deriving DecidableEq

/-- `save_config` (src/main.py lines 59-63): serialize the full state,
turning the dedup set into a list.  Python iterates a `set` in an
unspecified order; we model the emitted order as sorted, one definite
representative of that order. -/
def save_config (cfg : AppConfig) : ConfigFile :=
  { search := cfg.search
    notif := cfg.notif
    is_active := cfg.is_active
    known_issue_ids := cfg.known_issue_ids.sort (· ≤ ·)
    last_items := cfg.last_items }

/-- `load_config` (src/main.py lines 51-56), the branch where the file
exists: read the record back and rebuild the set from the stored list
(line 54: `set(raw.get("known_issue_ids", []))`). -/
def load_config (file : ConfigFile) : AppConfig :=
  { search := file.search
    notif := file.notif
    is_active := file.is_active
    known_issue_ids := file.known_issue_ids.toFinset
    last_items := file.last_items }

/-- `POST /config` handler `update_config` (src/main.py lines 84-90):
replace `search` and `notif`, then persist.  Returns the new in-memory
state and the file written by `save_config`. -/
def update_config (cfg : AppConfig) (s : SearchConfig) (n : NotificationConfig) :
    AppConfig × ConfigFile :=
  let c := { cfg with search := s, notif := n }
  (c, save_config c)

/-- `POST /watch/start` handler (src/main.py lines 93-98). -/
def start_watch (cfg : AppConfig) : AppConfig × ConfigFile :=
  let c := { cfg with is_active := true }
  (c, save_config c)

/-- `POST /watch/stop` handler (src/main.py lines 101-106). -/
def stop_watch (cfg : AppConfig) : AppConfig × ConfigFile :=
  let c := { cfg with is_active := false }
  (c, save_config c)

/-- The HTTP request parameters `fetch_github_issues` sends to the GitHub
search endpoint (src/main.py lines 139-144). -/
structure RequestParams where
  q : String
  sort : String
  order : String
  per_page : Nat
deriving Repr, DecidableEq

/-- The query-term list built by `fetch_github_issues` (src/main.py lines
122-134): for each configured name an `org:` term and a `user:` term, then
one `language:` term per language, then the fixed label term. -/
def query_parts (s : SearchConfig) : List String :=
  (s.organizations.flatMap (fun name => ["org:" ++ name, "user:" ++ name]))
    ++ s.languages.map (fun lang => "language:" ++ lang)
    ++ ["label:\"good first issue\""]

/-- Request construction of `fetch_github_issues` (src/main.py lines
120-144): join the terms with spaces (line 137), sort by update time
descending, page size 50. -/
def fetch_github_issues_request (s : SearchConfig) : RequestParams :=
  let parts := query_parts s
  { q := if parts.isEmpty then "label:\"good first issue\"" else String.intercalate " " parts
    sort := "updated"
    order := "desc"
    per_page := 50 }

/-- Python truthiness of an `Optional[str]`: `None` and `""` are falsy. -/
def truthy : Option String → Bool
  | none => false
  | some s => !s.isEmpty

/-- Python f-string rendering of `issue.get('state')` inside line 171:
`None` prints as the text `None`. -/
def render_state : Option String → String
  | some s => s
  | none => "None"

/-- Character slice `body[:200]` of src/main.py line 171; Python slices
strings by code point, so this is a 200-character take. -/
def truncate200 (s : String) : String := ⟨s.data.take 200⟩

/-- One Discord embed card (src/main.py lines 167-175). -/
structure Embed where
  title : Option String
  url : Option String
  description : String
  color : Nat
  footer_text : String
deriving Repr, DecidableEq

/-- The JSON payload posted to the webhook (src/main.py lines 177-180). -/
structure DiscordPayload where
  content : String
  embeds : List Embed
deriving Repr, DecidableEq

/-- Embed built for one issue (src/main.py lines 162-175): strip the API
prefix from `repository_url` (a global string replace, line 163), default a
missing body to `""` (line 166), truncate the body to 200 characters. -/
def mk_embed (issue : Item) : Embed :=
  { title := issue.title
    url := issue.html_url
    description :=
      "Repo: " ++ issue.repository_url.replace "https://api.github.com/repos/" ""
        ++ "\nState: " ++ render_state issue.state
        ++ "\n\n" ++ truncate200 (issue.body.getD "") ++ "..."
    color := 5814783
    footer_text := "GitScout Notification" }

/-- `send_discord_webhook` (src/main.py lines 153-183), modelled as the
payload it posts: `none` when it returns without posting (falsy URL, line
154, or empty batch, line 158), otherwise the single message with a count
headline and the first five issues rendered as embeds. -/
def send_discord_webhook (webhook_url : Option String) (issues : List Item) :
    Option DiscordPayload :=
  if truthy webhook_url = false then none
  else if issues.length = 0 then none
  else some
    { content := "🚀 GitScout Alert: Found " ++ toString issues.length
        ++ " new 'good first issue'" ++ (if issues.length = 1 then "" else "s") ++ "!"
      embeds := (issues.take 5).map mk_embed }

/-- The dedup loop of `run_check_once` (src/main.py lines 204-211): walk
the fetched items in order; an item with no `id` is skipped; an unseen id
is inserted into the set at once and the item appended to the new batch. -/
def dedup (seen : Finset Int) : List Item → Finset Int × List Item
  | [] => (seen, [])
  | it :: rest =>
    match it.id with
    | none => dedup seen rest
    | some iid =>
      if iid ∈ seen then dedup seen rest
      else
        let r := dedup (insert iid seen) rest
        (r.1, it :: r.2)

/-- The value `run_check_once` produces for its caller: the skip message
(line 197), the 502 `HTTPException` on a fetch failure (line 202), the
uncaught exception escaping from the webhook post (line 219 has no
try/except), or the normal summary dict (lines 221-225, timestamp
omitted). -/
inductive CycleResult where
  | inactive
  | upstreamError (detail : String)
  | notifyError (err : String)
  | summary (fetched new : Nat)
deriving Repr, DecidableEq

/-- Observable effects of one `run_check_once` call: the global `config`
after the call, the value or exception returned, whether `save_config` ran
(line 215), the `new_issues` local, and the webhook payload posted (if
any). -/
structure CycleEffects where
  newConfig : AppConfig
  result : CycleResult
  persisted : Bool
  new_issues : List Item
  notified : Option DiscordPayload
deriving DecidableEq

/-- `run_check_once` (src/main.py lines 188-227).  The GitHub fetch and the
webhook post are network effects, passed in as environment outcomes:
`fetch` is the list GitHub returned or the `httpx.HTTPError` raised;
`notifyOutcome` is whether the webhook post at line 219 succeeds or raises
(consulted only when the post happens, i.e. when the new batch is non-empty
and the webhook URL is truthy, line 218).  A raised post makes the cycle
end in `notifyError` — there is no try/except around it — but the state
update and `save_config` (lines 210-215) have already happened. -/
def run_check_once (config : AppConfig) (fetch : Except String (List Item))
    (notifyOutcome : Except String Unit) : CycleEffects :=
  if config.is_active then
    match fetch with
    | .error e =>
      { newConfig := config
        result := .upstreamError ("github error: " ++ e)
        persisted := false
        new_issues := []
        notified := none }
    | .ok items =>
      let d := dedup config.known_issue_ids items
      let config2 := { config with known_issue_ids := d.1, last_items := items }
      let doNotify := !d.2.isEmpty && truthy config2.notif.webhook_url
      { newConfig := config2
        result :=
          match doNotify, notifyOutcome with
          | true, .error e => .notifyError e
          | _, _ => .summary items.length d.2.length
        persisted := true
        new_issues := d.2
        notified := if doNotify then send_discord_webhook config2.notif.webhook_url d.2 else none }
  else
    { newConfig := config
      result := .inactive
      persisted := false
      new_issues := []
      notified := none }

/-- The identifiers carried by a fetched item list, in fetch order (items
with no `id` contribute nothing, mirroring the `continue` at line 208). -/
def ids_of (items : List Item) : List Int := items.filterMap (·.id)

/-- The membership test of line 209 against a fixed snapshot of the dedup
set: an item is new when it has an id and that id is not in the set. -/
def is_new (seen : Finset Int) (it : Item) : Bool :=
  match it.id with
  | some iid => decide (iid ∉ seen)
  | none => false

/-!
Interleaving model for the concurrency claim.  `run_check_once` can execute
simultaneously in two OS threads: the FastAPI event-loop thread (an
on-demand `GET /cron/check` trigger) and the background worker thread,
which calls it through its own `asyncio.run` (src/main.py line 257).  No
lock guards `config.known_issue_ids`.  For one shared incoming item with
identifier `iid`, each thread executes the dedup body as two separately
atomic Python steps: the membership test `iid not in config.known_issue_ids`
(line 209) and the insert-and-append (lines 210-211); the interpreter may
switch threads between them.  A schedule is the order in which the two
cycles take their next step.
-/

/-- The two concurrently running cycles: `A` the on-demand trigger, `B` the
background worker's cycle. -/
inductive RaceCycle where
  | A
  | B
deriving Repr, DecidableEq

/-- Shared dedup set plus each cycle's progress through the two-step dedup
body (`pc` 0 = before the membership test, 1 = test found the id absent,
2 = done) and whether it reported the item as new. -/
structure RaceState where
  seen : Finset Int
  pcA : Nat
  pcB : Nat
  reportedNewA : Bool
  reportedNewB : Bool
deriving DecidableEq

/-- One atomic step of the named cycle on the shared state: the membership
test of line 209, or the insert+append of lines 210-211. -/
def race_step (iid : Int) (s : RaceState) : RaceCycle → RaceState
  | .A =>
    if s.pcA = 0 then
      if iid ∈ s.seen then { s with pcA := 2 } else { s with pcA := 1 }
    else if s.pcA = 1 then
      { s with seen := insert iid s.seen, reportedNewA := true, pcA := 2 }
    else s
  | .B =>
    if s.pcB = 0 then
      if iid ∈ s.seen then { s with pcB := 2 } else { s with pcB := 1 }
    else if s.pcB = 1 then
      { s with seen := insert iid s.seen, reportedNewB := true, pcB := 2 }
    else s

/-- Run the two cycles under a given thread schedule. -/
def run_schedule (iid : Int) (s : RaceState) : List RaceCycle → RaceState
  | [] => s
  | c :: rest => run_schedule iid (race_step iid s c) rest

/-- Both cycles at the start of the dedup body, dedup set empty. -/
def race_init : RaceState :=
  { seen := ∅, pcA := 0, pcB := 0, reportedNewA := false, reportedNewB := false }

/-! Theorems. -/

/-- The dedup loop's final set is the starting set together with every
identifier of the fetched list. -/
theorem dedup_fst_eq (seen : Finset Int) (items : List Item) :
    (dedup seen items).1 = seen ∪ (ids_of items).toFinset := by
  induction items generalizing seen with
  | nil => simp [dedup, ids_of]
  | cons it rest ih =>
    cases h : it.id with
    | none =>
      simp [dedup, h, ids_of, List.filterMap_cons, ih]
    | some iid =>
      by_cases hm : iid ∈ seen
      · rw [show dedup seen (it :: rest) = dedup seen rest by simp [dedup, h, hm]]
        rw [ih]
        rw [show ids_of (it :: rest) = iid :: ids_of rest by simp [ids_of, List.filterMap_cons, h]]
        ext x
        simp only [Finset.mem_union, List.mem_toFinset, List.mem_cons]
        constructor
        · tauto
        · rintro (hx | hx | hx) <;> [exact Or.inl hx; exact Or.inl (hx ▸ hm); exact Or.inr hx]
      · rw [show dedup seen (it :: rest)
              = ((dedup (insert iid seen) rest).1, it :: (dedup (insert iid seen) rest).2) by
            simp [dedup, h, hm]]
        rw [show ids_of (it :: rest) = iid :: ids_of rest by simp [ids_of, List.filterMap_cons, h]]
        have := ih (insert iid seen)
        simp only [this]
        ext x
        simp only [Finset.mem_union, Finset.mem_insert, List.mem_toFinset, List.mem_cons]
        tauto

/-- When the fetched identifiers are pairwise distinct, the dedup loop's
new batch is exactly the in-order sublist of items whose identifier is
absent from the starting set. -/
theorem dedup_snd_eq (seen : Finset Int) (items : List Item)
    (hnd : (ids_of items).Nodup) :
    (dedup seen items).2 = items.filter (is_new seen) := by
  induction items generalizing seen with
  | nil => simp [dedup]
  | cons it rest ih =>
    cases h : it.id with
    | none =>
      have hnd' : (ids_of rest).Nodup := by
        simpa [ids_of, List.filterMap_cons, h] using hnd
      have hnew : is_new seen it = false := by simp [is_new, h]
      simp [dedup, h, List.filter_cons, hnew, ih _ hnd']
    | some iid =>
      have hnd2 : iid ∉ ids_of rest ∧ (ids_of rest).Nodup := by
        have : ids_of (it :: rest) = iid :: ids_of rest := by
          simp [ids_of, List.filterMap_cons, h]
        rw [this] at hnd
        exact ⟨(List.nodup_cons.mp hnd).1, (List.nodup_cons.mp hnd).2⟩
      by_cases hm : iid ∈ seen
      · have hnew : is_new seen it = false := by simp [is_new, h, hm]
        rw [show dedup seen (it :: rest) = dedup seen rest by simp [dedup, h, hm]]
        simp [List.filter_cons, hnew, ih _ hnd2.2]
      · have hnew : is_new seen it = true := by simp [is_new, h, hm]
        rw [show dedup seen (it :: rest)
              = ((dedup (insert iid seen) rest).1, it :: (dedup (insert iid seen) rest).2) by
            simp [dedup, h, hm]]
        simp only [List.filter_cons, hnew, if_pos]
        rw [ih _ hnd2.2]
        refine congrArg (it :: ·) (List.filter_congr ?_)
        intro x hx
        cases hx2 : x.id with
        | none => simp [is_new, hx2]
        | some j =>
          have hj : j ∈ ids_of rest := by
            simp only [ids_of, List.mem_filterMap]
            exact ⟨x, hx, hx2⟩
          have : j ≠ iid := fun he => hnd2.1 (he ▸ hj)
          simp [is_new, hx2, Finset.mem_insert, this]

/-- A bare item carrying only an identifier, for concrete instances. -/
def item_with_id (iid : Int) : Item :=
  { id := some iid, title := none, html_url := none, repository_url := ""
    state := none, body := none }

/-- Claim C1: in an active cycle with a successful fetch of items with
pairwise-distinct identifiers, the new-items batch is exactly the fetched
items, in fetch order, whose identifier was absent from the dedup set at
cycle start, and the post-cycle dedup set is the pre-cycle set united with
every fetched identifier. -/
theorem run_check_once_dedup (cfg : AppConfig) (items : List Item)
    (n : Except String Unit)
    (hactive : cfg.is_active = true)
    (hnd : (ids_of items).Nodup) :
    (run_check_once cfg (.ok items) n).new_issues
        = items.filter (is_new cfg.known_issue_ids) ∧
    (run_check_once cfg (.ok items) n).newConfig.known_issue_ids
        = cfg.known_issue_ids ∪ (ids_of items).toFinset := by
  constructor
  · simp [run_check_once, hactive, dedup_snd_eq _ _ hnd]
  · simp [run_check_once, hactive, dedup_fst_eq]

/-- Witness for C1, the spec's own instance: fetched identifiers 1, 2, 3
against pre-cycle dedup set containing only 2 give the batch of items 1
and 3 in fetch order and post-cycle set containing 1, 2, 3. -/
theorem run_check_once_dedup_witness :
    ((⟨⟨[], [], 120⟩, ⟨none⟩, true, {2}, []⟩ : AppConfig).is_active = true) ∧
    (ids_of [item_with_id 1, item_with_id 2, item_with_id 3]).Nodup ∧
    ((run_check_once ⟨⟨[], [], 120⟩, ⟨none⟩, true, {2}, []⟩
        (.ok [item_with_id 1, item_with_id 2, item_with_id 3]) (.ok ())).new_issues
        = [item_with_id 1, item_with_id 2, item_with_id 3].filter (is_new {2}) ∧
      (run_check_once ⟨⟨[], [], 120⟩, ⟨none⟩, true, {2}, []⟩
        (.ok [item_with_id 1, item_with_id 2, item_with_id 3]) (.ok ())).newConfig.known_issue_ids
        = {2} ∪ (ids_of [item_with_id 1, item_with_id 2, item_with_id 3]).toFinset) ∧
    ([item_with_id 1, item_with_id 2, item_with_id 3].filter (is_new {2})
        = [item_with_id 1, item_with_id 3]) ∧
    (({2} ∪ (ids_of [item_with_id 1, item_with_id 2, item_with_id 3]).toFinset : Finset Int)
        = {1, 2, 3}) :=
  ⟨by decide, by decide, run_check_once_dedup _ _ _ (by decide) (by decide),
    by decide, by decide⟩

/-- Claim C2: with the watch inactive at cycle start the cycle is a no-op:
the state is returned unchanged, nothing is persisted, no notification is
attempted, and the skip result is reported. -/
theorem run_check_once_inactive (cfg : AppConfig) (fetch : Except String (List Item))
    (n : Except String Unit) (h : cfg.is_active = false) :
    run_check_once cfg fetch n =
      { newConfig := cfg, result := .inactive, persisted := false
        new_issues := [], notified := none } := by
  simp [run_check_once, h]

/-- Witness for C2 at a concrete inactive state. -/
theorem run_check_once_inactive_witness :
    ((⟨⟨[], [], 120⟩, ⟨none⟩, false, {5}, []⟩ : AppConfig).is_active = false) ∧
    run_check_once ⟨⟨[], [], 120⟩, ⟨none⟩, false, {5}, []⟩
        (.ok [item_with_id 1]) (.ok ()) =
      { newConfig := ⟨⟨[], [], 120⟩, ⟨none⟩, false, {5}, []⟩, result := .inactive
        persisted := false, new_issues := [], notified := none } :=
  ⟨by decide, run_check_once_inactive _ _ _ (by decide)⟩

/-- Claim C3: when the fetch raises, the active cycle aborts with the
upstream 502 error, the state is returned unchanged, nothing is persisted,
and no notification is attempted. -/
theorem run_check_once_fetch_error (cfg : AppConfig) (e : String)
    (n : Except String Unit) (h : cfg.is_active = true) :
    run_check_once cfg (.error e) n =
      { newConfig := cfg, result := .upstreamError ("github error: " ++ e)
        persisted := false, new_issues := [], notified := none } := by
  simp [run_check_once, h]

/-- Witness for C3 at a concrete active state and a concrete fetch error. -/
theorem run_check_once_fetch_error_witness :
    ((⟨⟨[], [], 120⟩, ⟨none⟩, true, {5}, [item_with_id 5]⟩ : AppConfig).is_active = true) ∧
    run_check_once ⟨⟨[], [], 120⟩, ⟨none⟩, true, {5}, [item_with_id 5]⟩
        (.error "timeout") (.ok ()) =
      { newConfig := ⟨⟨[], [], 120⟩, ⟨none⟩, true, {5}, [item_with_id 5]⟩
        result := .upstreamError ("github error: " ++ "timeout")
        persisted := false, new_issues := [], notified := none } :=
  ⟨by decide, run_check_once_fetch_error _ _ _ (by decide)⟩

/-- Counterexample to claim C4 as stated: with an active state, a truthy
webhook URL, one genuinely new fetched item and a failing webhook post, the
cycle does not return its normal summary — the delivery error escapes
`run_check_once` (the `await` at line 219 has no try/except), so the caller
sees the exception instead of the summary dict. -/
theorem run_check_once_notify_error_escapes :
    (run_check_once ⟨⟨[], [], 120⟩, ⟨some "https://hook.example"⟩, true, ∅, []⟩
        (.ok [item_with_id 1]) (.error "timeout")).result = .notifyError "timeout" ∧
    (run_check_once ⟨⟨[], [], 120⟩, ⟨some "https://hook.example"⟩, true, ∅, []⟩
        (.ok [item_with_id 1]) (.error "timeout")).result ≠ .summary 1 1 := by
  decide

/-- Claim C4 (amended): when the notification step fails in an active cycle
that attempted delivery (non-empty new batch, truthy webhook URL), the
already-performed updates to the dedup set and last-fetch list stand and
were persisted — but the delivery error escapes to the cycle's caller in
place of the normal summary result. -/
theorem run_check_once_notify_error_no_rollback (cfg : AppConfig) (items : List Item)
    (e : String)
    (hactive : cfg.is_active = true)
    (hsend : (!(dedup cfg.known_issue_ids items).2.isEmpty
                && truthy cfg.notif.webhook_url) = true) :
    (run_check_once cfg (.ok items) (.error e)).persisted = true ∧
    (run_check_once cfg (.ok items) (.error e)).newConfig
        = { cfg with known_issue_ids := (dedup cfg.known_issue_ids items).1
                     last_items := items } ∧
    (run_check_once cfg (.ok items) (.error e)).result = .notifyError e := by
  refine ⟨?_, ?_, ?_⟩ <;> simp [run_check_once, hactive, hsend]

/-- Witness for the amended C4 at a concrete active state with a configured
webhook and one new item. -/
theorem run_check_once_notify_error_no_rollback_witness :
    ((⟨⟨[], [], 120⟩, ⟨some "https://hook.example"⟩, true, ∅, []⟩ : AppConfig).is_active
        = true) ∧
    ((!(dedup (⟨⟨[], [], 120⟩, ⟨some "https://hook.example"⟩, true, ∅, []⟩
          : AppConfig).known_issue_ids [item_with_id 1]).2.isEmpty
        && truthy (⟨⟨[], [], 120⟩, ⟨some "https://hook.example"⟩, true, ∅, []⟩
          : AppConfig).notif.webhook_url) = true) ∧
    ((run_check_once ⟨⟨[], [], 120⟩, ⟨some "https://hook.example"⟩, true, ∅, []⟩
        (.ok [item_with_id 1]) (.error "timeout")).persisted = true ∧
     (run_check_once ⟨⟨[], [], 120⟩, ⟨some "https://hook.example"⟩, true, ∅, []⟩
        (.ok [item_with_id 1]) (.error "timeout")).newConfig
        = { (⟨⟨[], [], 120⟩, ⟨some "https://hook.example"⟩, true, ∅, []⟩ : AppConfig) with
            known_issue_ids :=
              (dedup (⟨⟨[], [], 120⟩, ⟨some "https://hook.example"⟩, true, ∅, []⟩
                : AppConfig).known_issue_ids [item_with_id 1]).1
            last_items := [item_with_id 1] } ∧
     (run_check_once ⟨⟨[], [], 120⟩, ⟨some "https://hook.example"⟩, true, ∅, []⟩
        (.ok [item_with_id 1]) (.error "timeout")).result = .notifyError "timeout") :=
  ⟨by decide, by decide,
    run_check_once_notify_error_no_rollback _ _ _ (by decide) (by decide)⟩

/-- Claim C5: the dedup set is monotone across the system's operations —
a cycle run only grows it, and the three mutating control handlers
(`/config`, `/watch/start`, `/watch/stop`) leave it untouched. -/
theorem seen_ids_monotone (cfg : AppConfig) (fetch : Except String (List Item))
    (n : Except String Unit) (s : SearchConfig) (nc : NotificationConfig) :
    cfg.known_issue_ids ⊆ (run_check_once cfg fetch n).newConfig.known_issue_ids ∧
    (update_config cfg s nc).1.known_issue_ids = cfg.known_issue_ids ∧
    (start_watch cfg).1.known_issue_ids = cfg.known_issue_ids ∧
    (stop_watch cfg).1.known_issue_ids = cfg.known_issue_ids := by
  refine ⟨?_, rfl, rfl, rfl⟩
  cases hA : cfg.is_active
  · simp [run_check_once, hA]
  · cases fetch with
    | error e => simp [run_check_once, hA]
    | ok items =>
      simp only [run_check_once, hA, if_true, dedup_fst_eq]
      exact Finset.subset_union_left

/-- Witness for C5 at a concrete state and cycle input. -/
theorem seen_ids_monotone_witness :
    ((⟨⟨[], [], 120⟩, ⟨none⟩, true, {2}, []⟩ : AppConfig).known_issue_ids
        ⊆ (run_check_once ⟨⟨[], [], 120⟩, ⟨none⟩, true, {2}, []⟩
            (.ok [item_with_id 1]) (.ok ())).newConfig.known_issue_ids ∧
     (update_config ⟨⟨[], [], 120⟩, ⟨none⟩, true, {2}, []⟩ ⟨["octo"], ["python"], 60⟩
        ⟨some "https://hook.example"⟩).1.known_issue_ids
        = (⟨⟨[], [], 120⟩, ⟨none⟩, true, {2}, []⟩ : AppConfig).known_issue_ids ∧
     (start_watch ⟨⟨[], [], 120⟩, ⟨none⟩, true, {2}, []⟩).1.known_issue_ids
        = (⟨⟨[], [], 120⟩, ⟨none⟩, true, {2}, []⟩ : AppConfig).known_issue_ids ∧
     (stop_watch ⟨⟨[], [], 120⟩, ⟨none⟩, true, {2}, []⟩).1.known_issue_ids
        = (⟨⟨[], [], 120⟩, ⟨none⟩, true, {2}, []⟩ : AppConfig).known_issue_ids) :=
  seen_ids_monotone _ _ _ _ _

/-- Claim C6 (violation exhibit): the code takes no lock, and the
background worker thread runs cycles concurrently with on-demand triggers;
under the interleaving test-A, test-B, insert-A, insert-B of the two-step
dedup body on a shared unseen identifier, both cycles report the same item
as new and their mutations of the dedup set interleave, whereas a
sequential schedule makes only the first cycle report it. -/
theorem race_duplicate_new_report :
    ((run_schedule 1 race_init [.A, .B, .A, .B]).reportedNewA = true ∧
     (run_schedule 1 race_init [.A, .B, .A, .B]).reportedNewB = true) ∧
    ((run_schedule 1 race_init [.A, .A, .B, .B]).reportedNewA = true ∧
     (run_schedule 1 race_init [.A, .A, .B, .B]).reportedNewB = false) := by
  decide

/-- Claim C7: query construction is a deterministic function of the
filter — every configured name contributes both an `org:` and a `user:`
term, every language a `language:` term, the fixed label term is always
present, the query is the space-join (implicit AND) of the terms, an empty
filter yields the label-only query, and the request asks for page size 50
sorted by update time descending. -/
theorem fetch_github_issues_query (s : SearchConfig) :
    (∀ name ∈ s.organizations,
        ("org:" ++ name) ∈ query_parts s ∧ ("user:" ++ name) ∈ query_parts s) ∧
    (∀ lang ∈ s.languages, ("language:" ++ lang) ∈ query_parts s) ∧
    "label:\"good first issue\"" ∈ query_parts s ∧
    (fetch_github_issues_request s).q = String.intercalate " " (query_parts s) ∧
    (s.organizations = [] → s.languages = [] →
        (fetch_github_issues_request s).q = "label:\"good first issue\"") ∧
    (fetch_github_issues_request s).per_page = 50 ∧
    (fetch_github_issues_request s).sort = "updated" ∧
    (fetch_github_issues_request s).order = "desc" := by
  have hne : (query_parts s).isEmpty = false := by
    simp [query_parts]
  refine ⟨?_, ?_, ?_, ?_, ?_, rfl, rfl, rfl⟩
  · intro name hname
    constructor <;>
      · simp only [query_parts, List.mem_append, List.mem_flatMap]
        exact Or.inl (Or.inl ⟨name, hname, by simp⟩)
  · intro lang hlang
    simp only [query_parts, List.mem_append, List.mem_map]
    exact Or.inl (Or.inr ⟨lang, hlang, rfl⟩)
  · simp [query_parts]
  · simp [fetch_github_issues_request, hne]
  · intro h1 h2
    simp only [fetch_github_issues_request, query_parts, h1, h2, List.flatMap_nil,
      List.map_nil, List.nil_append]
    rfl

/-- Witness for C7 at a one-organization, one-language filter and at the
empty filter. -/
theorem fetch_github_issues_query_witness :
    (("org:" ++ "octo") ∈ query_parts ⟨["octo"], ["python"], 120⟩ ∧
     ("user:" ++ "octo") ∈ query_parts ⟨["octo"], ["python"], 120⟩) ∧
    ("language:" ++ "python") ∈ query_parts ⟨["octo"], ["python"], 120⟩ ∧
    "label:\"good first issue\"" ∈ query_parts ⟨["octo"], ["python"], 120⟩ ∧
    (fetch_github_issues_request ⟨[], [], 120⟩).q = "label:\"good first issue\"" ∧
    (fetch_github_issues_request ⟨["octo"], ["python"], 120⟩).per_page = 50 :=
  ⟨(fetch_github_issues_query ⟨["octo"], ["python"], 120⟩).1 "octo" (by simp),
   (fetch_github_issues_query ⟨["octo"], ["python"], 120⟩).2.1 "python" (by simp),
   (fetch_github_issues_query ⟨["octo"], ["python"], 120⟩).2.2.1,
   (fetch_github_issues_query ⟨[], [], 120⟩).2.2.2.2.1 rfl rfl,
   (fetch_github_issues_query ⟨["octo"], ["python"], 120⟩).2.2.2.2.2.1⟩

/-- Claim C8: the persistence round trip is lossless — loading what
`save_config` wrote returns a state equal to the original in every field,
the dedup set included. -/
theorem load_save_round_trip (cfg : AppConfig) :
    load_config (save_config cfg) = cfg := by
  cases cfg with
  | mk s n a k l => simp [load_config, save_config, Finset.sort_toFinset]

/-- The 200-character body slice never exceeds 200 characters. -/
theorem truncate200_length_le (s : String) : (truncate200 s).length ≤ 200 := by
  simp only [truncate200, String.length]
  rw [List.length_take]
  exact min_le_left _ _

/-- Claim C9: the notifier is a no-op on an absent target or an empty
batch; otherwise it posts one message whose headline states the total new
count and whose embeds are exactly the first five items in fetch order,
each rendered from the item's title, link, repository, state and a body
truncated to at most 200 characters. -/
theorem send_discord_webhook_spec (t : Option String) (issues : List Item)
    (hu : truthy t = true) (hne : issues ≠ []) :
    (∀ batch : List Item, send_discord_webhook none batch = none) ∧
    (∀ u : Option String, send_discord_webhook u [] = none) ∧
    ∃ p : DiscordPayload,
      send_discord_webhook t issues = some p ∧
      p.content = "🚀 GitScout Alert: Found " ++ toString issues.length
          ++ " new 'good first issue'" ++ (if issues.length = 1 then "" else "s") ++ "!" ∧
      p.embeds = (issues.take 5).map mk_embed ∧
      p.embeds.length ≤ 5 ∧
      ∀ it ∈ issues,
        (mk_embed it).title = it.title ∧
        (mk_embed it).url = it.html_url ∧
        (mk_embed it).description =
          "Repo: " ++ it.repository_url.replace "https://api.github.com/repos/" ""
            ++ "\nState: " ++ render_state it.state
            ++ "\n\n" ++ truncate200 (it.body.getD "") ++ "..." ∧
        (truncate200 (it.body.getD "")).length ≤ 200 := by
  refine ⟨?_, ?_, ?_⟩
  · intro batch
    simp [send_discord_webhook, truthy]
  · intro u
    cases h : truthy u <;> simp [send_discord_webhook, h]
  · have hlen : issues.length ≠ 0 := fun h => hne (List.length_eq_zero.mp h)
    have hsend : send_discord_webhook t issues = some
        { content := "🚀 GitScout Alert: Found " ++ toString issues.length
            ++ " new 'good first issue'" ++ (if issues.length = 1 then "" else "s") ++ "!"
          embeds := (issues.take 5).map mk_embed } := by
      simp [send_discord_webhook, hu, hlen]
    refine ⟨_, hsend, rfl, rfl, ?_, ?_⟩
    · rw [List.length_map, List.length_take]
      exact min_le_left _ _
    · intro it _
      exact ⟨rfl, rfl, rfl, truncate200_length_le _⟩

/-- Witness for C9, the spec's own instance: seven new items against a
configured target render exactly the first five and a headline counting
seven. -/
theorem send_discord_webhook_spec_witness :
    (truthy (some "https://hook.example") = true) ∧
    ((List.range 7).map (fun k => item_with_id k) ≠ []) ∧
    ((∀ batch : List Item, send_discord_webhook none batch = none) ∧
     (∀ u : Option String, send_discord_webhook u [] = none) ∧
     ∃ p : DiscordPayload,
       send_discord_webhook (some "https://hook.example")
           ((List.range 7).map (fun k => item_with_id k)) = some p ∧
       p.content = "🚀 GitScout Alert: Found "
           ++ toString ((List.range 7).map (fun k => item_with_id k)).length
           ++ " new 'good first issue'"
           ++ (if ((List.range 7).map (fun k => item_with_id k)).length = 1 then "" else "s")
           ++ "!" ∧
       p.embeds = (((List.range 7).map (fun k => item_with_id k)).take 5).map mk_embed ∧
       p.embeds.length ≤ 5 ∧
       ∀ it ∈ (List.range 7).map (fun k => item_with_id k),
         (mk_embed it).title = it.title ∧
         (mk_embed it).url = it.html_url ∧
         (mk_embed it).description =
           "Repo: " ++ it.repository_url.replace "https://api.github.com/repos/" ""
             ++ "\nState: " ++ render_state it.state
             ++ "\n\n" ++ truncate200 (it.body.getD "") ++ "..." ∧
         (truncate200 (it.body.getD "")).length ≤ 200) :=
  ⟨by decide, by decide,
    send_discord_webhook_spec _ _ (by decide) (by decide)⟩

/-- Claim C10: the `/config` handler mutates only the filter and the
notification target — the active flag, the dedup set and the last-fetch
list of the resulting in-memory state equal their pre-state values. -/
theorem update_config_frame (cfg : AppConfig) (s : SearchConfig) (n : NotificationConfig) :
    (update_config cfg s n).1.is_active = cfg.is_active ∧
    (update_config cfg s n).1.known_issue_ids = cfg.known_issue_ids ∧
    (update_config cfg s n).1.last_items = cfg.last_items ∧
    (update_config cfg s n).1.search = s ∧
    (update_config cfg s n).1.notif = n :=
  ⟨rfl, rfl, rfl, rfl, rfl⟩

end GitScout
